import Mathlib

/-!
Shallow embedding of the audio playback core of `src/source/audio/audio_playback.c`
(elagil/usb-i2s-bridge).

The `struct audio_playback` global becomes an explicit `Playback` state record.
The mailbox (`chMBPostI`) is modelled by returning the list of messages posted
during an operation, in order.  The `chDbgAssert` in
`audio_playback_update_write_offset` is modelled by returning `Option`:
`none` is the fatal assertion failure.  Hardware inputs (the I2S driver state
and its DMA `NDTR` register, the USB transaction size) are passed as arguments.
The byte buffer is modelled as a total function from byte index to byte value.

Configuration constants that live in headers outside the provided sources
(`AUDIO_MAX_PACKET_SIZE`, `AUDIO_RESOLUTION_BIT`) are gathered into a `Cfg`
record so all statements are parametric in them.
-/

namespace AudioPlayback

/-- Messages posted to the audio mailbox: `AUDIO_COMMON_MSG_START_PLAYBACK`
(called `BeginOutput` in the specification) and `AUDIO_COMMON_MSG_STOP_PLAYBACK`
(`EndOutput`). -/
inductive Msg where
  | startPlayback : Msg
  | stopPlayback : Msg
deriving DecidableEq, Repr

/-- Compile-time configuration constants of the firmware that are defined in
headers outside the provided sources: the maximum packet size
`AUDIO_MAX_PACKET_SIZE` and whether `AUDIO_RESOLUTION_BIT == 32` (which enables
the half-word swap in `audio_playback_update_write_offset` and the division of
the NDTR value in `audio_playback_update_read_offset`). -/
structure Cfg where
  max_packet_size : Nat
  resolution_is_32 : Bool

/-- The state of `struct audio_playback` (file `audio_playback.c`, lines 32-45).
The byte array `buffer` is modelled as a total function from index to byte. -/
structure Playback where
  packet_size : Nat
  buffer : Nat → Nat
  buffer_size : Nat
  buffer_write_offset : Nat
  buffer_read_offset : Nat
  buffer_target_fill_size : Nat
  buffer_fill_size : Nat
  b_streaming_enabled : Bool
  b_playback_enabled : Bool

/-- Modelled from the spec: the helper `wrap_unsigned` is declared in a common
header that is not under the provided sources.  The spec says the write offset
"is normalized modulo `nominal_buffer_size`". -/
def wrap_unsigned (value size : Nat) : Nat := value % size

/-- Modelled from the spec: the helper `subtract_circular_unsigned` is declared
in a common header that is not under the provided sources.  The spec defines
the fill size as "the circular forward distance from `read_offset` to
`write_offset` modulo `nominal_buffer_size`". -/
def subtract_circular_unsigned (minuend subtrahend size : Nat) : Nat :=
  if subtrahend ≤ minuend then minuend - subtrahend else size + minuend - subtrahend

/-- One step of the `SWAP_HALF_WORDS` loop: swap the two 16-bit halves of the
32-bit little-endian word whose first byte sits at index `base`. -/
def swap_half_words_bytes (b : Nat → Nat) (base : Nat) : Nat → Nat := fun i =>
  if i = base then b (base + 2)
  else if i = base + 1 then b (base + 3)
  else if i = base + 2 then b base
  else if i = base + 3 then b (base + 1)
  else b i

/-- The word-swap loop of `audio_playback_update_write_offset` (lines 132-138):
swap the halves of `count` consecutive 32-bit words starting at byte offset
`off`.  The loop body touches pairwise disjoint 4-byte regions, so folding from
the last word is equivalent to the C loop order. -/
def swap_words (b : Nat → Nat) (off : Nat) : Nat → (Nat → Nat)
  | 0 => b
  | n + 1 => swap_half_words_bytes (swap_words b off n) (off + 4 * n)

/-- The `#if AUDIO_RESOLUTION_BIT == 32u` block of
`audio_playback_update_write_offset`: for 32-bit audio
(`AUDIO_SAMPLE_SIZE = 4`) swap the half-words of the
`transaction_size / AUDIO_SAMPLE_SIZE` words just written; otherwise the
buffer is untouched. -/
def audio_playback_word_correct (cfg : Cfg) (b : Nat → Nat) (off transaction_size : Nat) :
    Nat → Nat :=
  if cfg.resolution_is_32 then swap_words b off (transaction_size / 4) else b

/-- The `memcpy` of line 144: copy `n` bytes from index `src` onward to the
start of the buffer. -/
def copy_to_start (b : Nat → Nat) (src n : Nat) : Nat → Nat :=
  fun i => if i < n then b (src + i) else b i

/-- `audio_playback_update_write_offset` (lines 123-148).  The
`chDbgAssert(new_buffer_write_offset < ARRAY_LENGTH(g_playback.buffer))` is
modelled as `none` on failure; the array length (spec: the capacity
`nominal_buffer_size + max_packet_size`) bounds any single transaction. -/
def audio_playback_update_write_offset (cfg : Cfg) (s : Playback)
    (transaction_size : Nat) : Option Playback :=
  let new_buffer_write_offset := s.buffer_write_offset + transaction_size
  if new_buffer_write_offset < s.buffer_size + cfg.max_packet_size then
    let b1 := audio_playback_word_correct cfg s.buffer s.buffer_write_offset transaction_size
    let b2 :=
      if s.buffer_size < new_buffer_write_offset then
        copy_to_start b1 s.buffer_size (new_buffer_write_offset - s.buffer_size)
      else b1
    some { s with buffer := b2,
                  buffer_write_offset := wrap_unsigned new_buffer_write_offset s.buffer_size }
  else
    none

/-- `audio_playback_update_read_offset` (lines 154-171): derive the read offset
from the I2S driver state and the DMA NDTR register.  For 32-bit audio the NDTR
value counts 16-bit samples, hence the division by two and the sample size 4;
for 16-bit audio the sample size is 2. -/
def audio_playback_update_read_offset (cfg : Cfg) (s : Playback)
    (i2s_active : Bool) (ndtr : Nat) : Playback :=
  let transferrable_sample_count := if cfg.resolution_is_32 then ndtr / 2 else ndtr
  let sample_size := if cfg.resolution_is_32 then 4 else 2
  { s with buffer_read_offset :=
      if i2s_active then s.buffer_size - sample_size * transferrable_sample_count else 0 }

/-- `audio_playback_update_fill_size` (lines 178-182). -/
def audio_playback_update_fill_size (s : Playback) : Playback :=
  { s with buffer_fill_size :=
      subtract_circular_unsigned s.buffer_write_offset s.buffer_read_offset s.buffer_size }

/-- `audio_playback_start` (lines 188-200): latch playback on once the fill
size reaches the target, posting `AUDIO_COMMON_MSG_START_PLAYBACK`. -/
def audio_playback_start (s : Playback) : Playback × List Msg :=
  if s.b_playback_enabled then (s, [])
  else if s.buffer_target_fill_size ≤ s.buffer_fill_size then
    ({ s with b_playback_enabled := true }, [Msg.startPlayback])
  else (s, [])

/-- `audio_playback_init` (lines 311-319): zero the offsets and the fill size,
disable playback, and set the streaming flag to the given value.  The mailbox
pointer is external and not part of the modelled state. -/
def audio_playback_init (s : Playback) (b_streaming_enabled : Bool) : Playback :=
  { s with buffer_write_offset := 0,
           buffer_read_offset := 0,
           buffer_fill_size := 0,
           b_playback_enabled := false,
           b_streaming_enabled := b_streaming_enabled }

/-- `audio_playback_reset` (line 304): re-initialize, keeping the current
streaming flag. -/
def audio_playback_reset (s : Playback) : Playback :=
  audio_playback_init s s.b_streaming_enabled

/-- `audio_playback_stop` (lines 207-216): no-op if playback is already
disabled; otherwise reset and post `AUDIO_COMMON_MSG_STOP_PLAYBACK`. -/
def audio_playback_stop (s : Playback) : Playback × List Msg :=
  if s.b_playback_enabled then (audio_playback_reset s, [Msg.stopPlayback])
  else (s, [])

/-- `audio_playback_received_cb` (lines 225-249).  The USB transaction size,
the I2S driver activity and its NDTR register are inputs.  The trailing
`usbStartReceiveI` re-arm only passes a buffer pointer to the USB collaborator
and changes no modelled state. -/
def audio_playback_received_cb (cfg : Cfg) (s : Playback) (transaction_size : Nat)
    (i2s_active : Bool) (ndtr : Nat) : Option (Playback × List Msg) :=
  if s.b_streaming_enabled = false then some (s, [])
  else if transaction_size = 0 then some (audio_playback_stop s)
  else
    match audio_playback_update_write_offset cfg s transaction_size with
    | none => none
    | some s1 =>
        let s2 := audio_playback_update_read_offset cfg s1 i2s_active ndtr
        let s3 := audio_playback_update_fill_size s2
        some (audio_playback_start s3)

/-- `audio_playback_start_streaming` (lines 257-276): no-op if already
streaming, else reset and enable streaming.  The returned boolean records
whether USB reception was (re-)armed (`usbStartReceiveI` issued). -/
def audio_playback_start_streaming (s : Playback) : Playback × Bool :=
  if s.b_streaming_enabled then (s, false)
  else ({ audio_playback_reset s with b_streaming_enabled := true }, true)

/-- `audio_playback_stop_streaming` (lines 284-297): no-op if already not
streaming, else clear the streaming flag and stop playback. -/
def audio_playback_stop_streaming (s : Playback) : Playback × List Msg :=
  if s.b_streaming_enabled then
    audio_playback_stop { s with b_streaming_enabled := false }
  else (s, [])

/-- `audio_playback_set_sample_rate` (lines 108-115).  The packet-size and
buffer-size macros `AUDIO_COMMON_GET_PACKET_SIZE` / `AUDIO_COMMON_GET_BUFFER_SIZE`
live in a header outside the provided sources; modelled from the spec
(`configure(packet_size, buffer_capacity_packets)` with
`nominal_buffer_size = packet_size * buffer_capacity_packets`), the resulting
packet size and the packet count are taken as arguments.  The target fill size
formula `buffer_size / 2 + packet_size / 2` is line 114 of the source. -/
def audio_playback_set_sample_rate (s : Playback) (packet_size buffer_packet_count : Nat) :
    Playback :=
  let buffer_size := buffer_packet_count * packet_size
  { s with packet_size := packet_size,
           buffer_size := buffer_size,
           buffer_target_fill_size := buffer_size / 2 + packet_size / 2 }

/-- An all-zero byte buffer. -/
def zeroBuf : Nat → Nat := fun _ => 0

/-- A buffer with distinguishable byte contents, for concrete scenarios. -/
def idBuf : Nat → Nat := fun i => i % 256

/-- The module state right after the C global `g_playback` is zero-initialized:
all fields zero / false. -/
def initState : Playback :=
  { packet_size := 0, buffer := zeroBuf, buffer_size := 0, buffer_write_offset := 0,
    buffer_read_offset := 0, buffer_target_fill_size := 0, buffer_fill_size := 0,
    b_streaming_enabled := false, b_playback_enabled := false }

/-- A 16-bit-resolution configuration with `AUDIO_MAX_PACKET_SIZE = 192`. -/
def cfg16 : Cfg := { max_packet_size := 192, resolution_is_32 := false }

/-- A 16-bit-resolution configuration with a large maximum packet size. -/
def cfgBig : Cfg := { max_packet_size := 2000, resolution_is_32 := false }

/-- Iterate `audio_playback_received_cb` for `n` packets of size `ts` with the
I2S consumer inactive, collecting all posted messages in order. -/
def recv_iter (cfg : Cfg) (ts : Nat) : Nat → Playback → Option (Playback × List Msg)
  | 0, s => some (s, [])
  | n + 1, s =>
    match audio_playback_received_cb cfg s ts false 0 with
    | none => none
    | some (s', ms) =>
        match recv_iter cfg ts n s' with
        | none => none
        | some (s'', ms') => some (s'', ms ++ ms')

/-- A fresh streaming session configured for 192-byte packets and 8 packets of
buffer (Scenario A of the spec): `buffer_size = 1536`, `target = 864`,
offsets zero, streaming enabled, playback disabled. -/
def sessionA : Playback :=
  (audio_playback_start_streaming (audio_playback_set_sample_rate initState 192 8)).1

/-- A mid-session state that is streaming with playback latched on
(Scenario C of the spec). -/
def sC1 : Playback :=
  { initState with
      packet_size := 192, buffer_size := 1536, buffer_write_offset := 960,
      buffer_target_fill_size := 864, buffer_fill_size := 960,
      b_streaming_enabled := true, b_playback_enabled := true }

/-- The state of Scenario B before the write: `write_offset = 1500`,
`nominal_buffer_size = 1536`. -/
def sB : Playback :=
  { initState with buffer := idBuf, buffer_size := 1536, buffer_write_offset := 1500 }

/-- The state of Scenario B after writing a 192-byte transaction: the 156
excess bytes are copied to the start and the offset wraps to 156. -/
def sB2 : Playback :=
  { sB with buffer := copy_to_start idBuf 1536 156, buffer_write_offset := 156 }

/-- A reachable state in which playback is latched on: session A after one
(large) successful 960-byte transaction under `cfgBig`. -/
def sPlaying : Playback :=
  { initState with
      packet_size := 192, buffer_size := 1536, buffer_write_offset := 960,
      buffer_target_fill_size := 864, buffer_fill_size := 960,
      b_streaming_enabled := true, b_playback_enabled := true }

/-- The set of byte indices of `g_playback.buffer` read or written by
`audio_playback_update_write_offset` itself: the 32-bit half-word swap loop
touches bytes `[write_offset, write_offset + 4 * (transaction_size / 4))`, and
when the nominal size is exceeded the `memcpy` reads the tail
`[buffer_size, write_offset + transaction_size)` and writes the excess
`[0, write_offset + transaction_size - buffer_size)`. -/
def write_access (cfg : Cfg) (s : Playback) (transaction_size i : Nat) : Prop :=
  (cfg.resolution_is_32 = true ∧ s.buffer_write_offset ≤ i ∧
    i < s.buffer_write_offset + 4 * (transaction_size / 4)) ∨
  (s.buffer_size < s.buffer_write_offset + transaction_size ∧
    (i < s.buffer_write_offset + transaction_size - s.buffer_size ∨
     (s.buffer_size ≤ i ∧ i < s.buffer_write_offset + transaction_size)))

/-- States reachable from a state with both mode flags false through any
sequence of the module's operations.  For `recv`, only runs in which the
write-offset assertion holds (the callback returns a state) continue. -/
inductive Reachable (cfg : Cfg) : Playback → Prop where
  | start (s : Playback) (h1 : s.b_streaming_enabled = false)
      (h2 : s.b_playback_enabled = false) : Reachable cfg s
  | init (s : Playback) (b : Bool) (h : Reachable cfg s) :
      Reachable cfg (audio_playback_init s b)
  | set_rate (s : Playback) (ps c : Nat) (h : Reachable cfg s) :
      Reachable cfg (audio_playback_set_sample_rate s ps c)
  | start_stream (s : Playback) (h : Reachable cfg s) :
      Reachable cfg (audio_playback_start_streaming s).1
  | stop_stream (s : Playback) (h : Reachable cfg s) :
      Reachable cfg (audio_playback_stop_streaming s).1
  | recv (s : Playback) (ts : Nat) (a : Bool) (n : Nat) (s' : Playback) (ms : List Msg)
      (h : Reachable cfg s)
      (heq : audio_playback_received_cb cfg s ts a n = some (s', ms)) :
      Reachable cfg s'

/-- `audio_playback_update_write_offset` never changes the mode flags, the
nominal buffer size, the target fill size, the fill size or the read offset
when it succeeds. -/
theorem update_write_offset_some_fields (cfg : Cfg) (s : Playback) (ts : Nat) (s₁ : Playback)
    (h : audio_playback_update_write_offset cfg s ts = some s₁) :
    s₁.b_playback_enabled = s.b_playback_enabled ∧
    s₁.b_streaming_enabled = s.b_streaming_enabled ∧
    s₁.buffer_size = s.buffer_size ∧
    s₁.buffer_target_fill_size = s.buffer_target_fill_size := by
  simp only [audio_playback_update_write_offset] at h
  split at h
  · simp only [Option.some.injEq] at h
    subst h
    simp
  · exact absurd h (by simp)

/-- C10: a packet-received callback while streaming is disabled returns the
state unchanged and posts nothing, for any transaction size. -/
theorem recv_ignored_when_not_streaming (cfg : Cfg) (s : Playback) (ts : Nat) (a : Bool)
    (n : Nat) (h : s.b_streaming_enabled = false) :
    audio_playback_received_cb cfg s ts a n = some (s, []) := by
  simp [audio_playback_received_cb, h]

/-- Witness for `recv_ignored_when_not_streaming` at the initial state with a
zero-length transaction. -/
theorem recv_ignored_when_not_streaming_witness :
    audio_playback_received_cb cfg16 initState 0 false 0 = some (initState, []) :=
  recv_ignored_when_not_streaming cfg16 initState 0 false 0 rfl

/-- C1, counterexample: at the concrete streaming-and-playing state `sC1`, a
zero-length transaction leaves `b_streaming_enabled = true`, refuting the
claim that streaming becomes disabled. -/
theorem recv_zero_keeps_streaming_counterexample :
    (audio_playback_received_cb cfg16 sC1 0 false 0).map
        (fun p => (p.1.b_playback_enabled, p.1.b_streaming_enabled, p.2)) =
      some (false, true, [Msg.stopPlayback]) := by
  rfl

/-- C1, amended: a zero-length (failed) transaction while streaming and
playing disables playback, keeps streaming enabled, and posts exactly one
`AUDIO_COMMON_MSG_STOP_PLAYBACK` (`EndOutput`) notification. -/
theorem recv_zero_stops_playback_keeps_streaming (cfg : Cfg) (s : Playback) (a : Bool)
    (n : Nat) (hs : s.b_streaming_enabled = true) (hp : s.b_playback_enabled = true) :
    (audio_playback_received_cb cfg s 0 a n).map
        (fun p => (p.1.b_playback_enabled, p.1.b_streaming_enabled, p.2)) =
      some (false, true, [Msg.stopPlayback]) := by
  simp [audio_playback_received_cb, audio_playback_stop, audio_playback_reset,
        audio_playback_init, hs, hp]

/-- Witness for `recv_zero_stops_playback_keeps_streaming` at the concrete
state `sC1`. -/
theorem recv_zero_stops_playback_keeps_streaming_witness :
    (audio_playback_received_cb cfg16 sC1 0 false 0).map
        (fun p => (p.1.b_playback_enabled, p.1.b_streaming_enabled, p.2)) =
      some (false, true, [Msg.stopPlayback]) :=
  recv_zero_stops_playback_keeps_streaming cfg16 sC1 false 0 rfl rfl

/-- C2: once playback is enabled, every successful (non-zero) packet-received
event keeps it enabled, and within packet handling it can only become disabled
by a zero-length transaction. -/
theorem recv_playback_latch (cfg : Cfg) (s : Playback) (ts : Nat) (a : Bool) (n : Nat)
    (s' : Playback) (ms : List Msg)
    (h : audio_playback_received_cb cfg s ts a n = some (s', ms))
    (hp : s.b_playback_enabled = true) :
    (ts ≠ 0 → s'.b_playback_enabled = true) ∧ (s'.b_playback_enabled = false → ts = 0) := by
  unfold audio_playback_received_cb at h
  split at h
  · simp only [Option.some.injEq, Prod.mk.injEq] at h
    obtain ⟨rfl, rfl⟩ := h.imp_left Eq.symm |>.imp_right Eq.symm
    exact ⟨fun _ => hp, fun hfalse => absurd hp (by simp [hfalse])⟩
  · split at h
    · rename_i hts
      exact ⟨fun hne => absurd hts hne, fun _ => hts⟩
    · rename_i hts
      cases hu : audio_playback_update_write_offset cfg s ts with
      | none => rw [hu] at h; exact absurd h (by simp)
      | some s₁ =>
          rw [hu] at h
          simp only [Option.some.injEq] at h
          have hflags := update_write_offset_some_fields cfg s ts s₁ hu
          have hfst : (audio_playback_start (audio_playback_update_fill_size
              (audio_playback_update_read_offset cfg s₁ a n))).1 = s' := by rw [h]
          have hps' : s'.b_playback_enabled = true := by
            have h1 : (audio_playback_update_fill_size
                (audio_playback_update_read_offset cfg s₁ a n)).b_playback_enabled = true := by
              simp [audio_playback_update_fill_size, audio_playback_update_read_offset,
                    hflags.1, hp]
            rw [← hfst]
            simp [audio_playback_start, h1]
          exact ⟨fun _ => hps', fun hfalse => absurd hps' (by simp [hfalse])⟩

/-- Witness for `recv_playback_latch`: from the playing state `sC1`, a 100-byte
packet (after which the fill size is 1044) keeps playback enabled. -/
theorem recv_playback_latch_witness :
    (audio_playback_received_cb cfg16 sC1 100 true 760).map
        (fun p => p.1.b_playback_enabled) = some true := by
  have h := (recv_playback_latch cfg16 sC1 100 true 760
      { sC1 with
          buffer_write_offset := 1060, buffer_read_offset := 16,
          buffer_fill_size := 1044 } [] rfl rfl).1 (by decide)
  rw [show audio_playback_received_cb cfg16 sC1 100 true 760 =
      some ({ sC1 with
                buffer_write_offset := 1060, buffer_read_offset := 16,
                buffer_fill_size := 1044 }, []) from rfl]
  simpa using h

/-- C3, Scenario A: with packet size 192 and 8 buffer packets the nominal
buffer size is 1536 and the target fill size 864; in a fresh session with the
consumer inactive, after 4 successful 192-byte packets the fill size is
768 < 864 and playback is still off with no message posted, and after the 5th
packet the fill size is 960 ≥ 864, playback is on, and exactly one
`AUDIO_COMMON_MSG_START_PLAYBACK` (`BeginOutput`) was posted in total. -/
theorem scenarioA_buffering_threshold :
    (audio_playback_set_sample_rate initState 192 8).buffer_size = 1536 ∧
    (audio_playback_set_sample_rate initState 192 8).buffer_target_fill_size = 864 ∧
    (recv_iter cfg16 192 4 sessionA).map
        (fun p => (p.1.b_playback_enabled, p.1.buffer_fill_size, p.2)) =
      some (false, 768, []) ∧
    (recv_iter cfg16 192 5 sessionA).map
        (fun p => (p.1.b_playback_enabled, p.1.buffer_fill_size, p.2)) =
      some (true, 960, [Msg.startPlayback]) :=
  ⟨rfl, rfl, rfl, rfl⟩

/-- C4: whenever a write makes the unwrapped offset exceed the nominal buffer
size, exactly the excess bytes are copied from the overflow tail (as it stands
after word correction) to the start of the buffer, all other bytes are left as
the word-corrected buffer, and the write offset is normalized modulo the
nominal buffer size. -/
theorem update_write_offset_wrap (cfg : Cfg) (s : Playback) (ts : Nat) (s' : Playback)
    (h : audio_playback_update_write_offset cfg s ts = some s')
    (hover : s.buffer_size < s.buffer_write_offset + ts) :
    (∀ i, i < s.buffer_write_offset + ts - s.buffer_size →
        s'.buffer i =
          audio_playback_word_correct cfg s.buffer s.buffer_write_offset ts
            (s.buffer_size + i)) ∧
    (∀ i, s.buffer_write_offset + ts - s.buffer_size ≤ i →
        s'.buffer i = audio_playback_word_correct cfg s.buffer s.buffer_write_offset ts i) ∧
    s'.buffer_write_offset = (s.buffer_write_offset + ts) % s.buffer_size := by
  have hcap : s.buffer_write_offset + ts < s.buffer_size + cfg.max_packet_size := by
    by_contra hge
    simp only [audio_playback_update_write_offset] at h
    rw [if_neg hge] at h
    exact absurd h (by simp)
  simp only [audio_playback_update_write_offset, if_pos hcap, if_pos hover,
    Option.some.injEq] at h
  subst h
  refine ⟨?_, ?_, rfl⟩
  · intro i hi
    simp [copy_to_start, hi]
  · intro i hi
    simp [copy_to_start, Nat.not_lt.mpr hi]

/-- Witness for `update_write_offset_wrap`: Scenario B with
`write_offset = 1500`, `nominal_buffer_size = 1536`, `transaction_size = 192`:
excess byte 155 (the last of the 156 excess bytes) comes from tail index 1691
and the final write offset is `1692 % 1536 = 156`. -/
theorem update_write_offset_wrap_witness :
    sB2.buffer 155 =
      audio_playback_word_correct cfg16 sB.buffer sB.buffer_write_offset 192
        (sB.buffer_size + 155) ∧
    sB2.buffer_write_offset = (sB.buffer_write_offset + 192) % sB.buffer_size := by
  have h := update_write_offset_wrap cfg16 sB 192 sB2 (by rfl) (by decide)
  exact ⟨h.1 155 (by decide), h.2.2⟩

/-- C5: the write operation succeeds exactly when
`write_offset + transaction_size < buffer_size + max_packet_size` (the
capacity); violation is the fatal assertion (`none`), and under the
precondition every buffer index touched by the word swap or the tail copy lies
below the capacity. -/
theorem update_write_offset_capacity_safety (cfg : Cfg) (s : Playback) (ts : Nat) :
    (s.buffer_size + cfg.max_packet_size ≤ s.buffer_write_offset + ts →
      audio_playback_update_write_offset cfg s ts = none) ∧
    (s.buffer_write_offset + ts < s.buffer_size + cfg.max_packet_size →
      (audio_playback_update_write_offset cfg s ts).isSome = true ∧
      ∀ i, write_access cfg s ts i → i < s.buffer_size + cfg.max_packet_size) := by
  constructor
  · intro hge
    simp only [audio_playback_update_write_offset]
    rw [if_neg (by omega)]
  · intro hlt
    refine ⟨?_, ?_⟩
    · simp only [audio_playback_update_write_offset]
      rw [if_pos hlt]
      rfl
    · intro i hi
      rcases hi with ⟨_, _, hi3⟩ | ⟨hov, hlt2 | ⟨_, hlt2⟩⟩ <;> omega

/-- Witness for `update_write_offset_capacity_safety`: in Scenario B the
192-byte write at offset 1500 is accepted (1692 < 1728), while the same write
at offset 1600 trips the assertion (1792 ≥ 1728). -/
theorem update_write_offset_capacity_safety_witness :
    (audio_playback_update_write_offset cfg16 sB 192).isSome = true ∧
    audio_playback_update_write_offset cfg16 { sB with buffer_write_offset := 1600 } 192 =
      none := by
  constructor
  · exact ((update_write_offset_capacity_safety cfg16 sB 192).2 (by decide)).1
  · exact (update_write_offset_capacity_safety cfg16
      { sB with buffer_write_offset := 1600 } 192).1 (by decide)

/-- C6: for offsets in `[0, nominal_buffer_size)` the computed fill size is in
`[0, nominal_buffer_size)` (the lower bound holds by the type), and equal
offsets yield fill size 0. -/
theorem fill_size_bound (s : Playback)
    (hw : s.buffer_write_offset < s.buffer_size)
    (hr : s.buffer_read_offset < s.buffer_size) :
    (audio_playback_update_fill_size s).buffer_fill_size < s.buffer_size ∧
    (s.buffer_read_offset = s.buffer_write_offset →
      (audio_playback_update_fill_size s).buffer_fill_size = 0) := by
  simp only [audio_playback_update_fill_size, subtract_circular_unsigned]
  constructor
  · split <;> omega
  · intro he
    split <;> omega

/-- Witness for `fill_size_bound` at the fresh session state (both offsets 0):
the fill size is 0 and below the nominal size 1536. -/
theorem fill_size_bound_witness :
    (audio_playback_update_fill_size sessionA).buffer_fill_size < sessionA.buffer_size ∧
    (audio_playback_update_fill_size sessionA).buffer_fill_size = 0 := by
  have h := fill_size_bound sessionA (by decide) (by decide)
  exact ⟨h.1, h.2 rfl⟩

/-- `audio_playback_stop` keeps the streaming flag and always leaves playback
disabled (it was either reset, or already disabled). -/
theorem stop_result_fields (s : Playback) :
    (audio_playback_stop s).1.b_streaming_enabled = s.b_streaming_enabled ∧
    (audio_playback_stop s).1.b_playback_enabled = false := by
  by_cases hp : s.b_playback_enabled = true <;>
    simp [audio_playback_stop, audio_playback_reset, audio_playback_init, hp]

/-- `audio_playback_start` never changes the streaming flag. -/
theorem start_result_streaming (s : Playback) :
    (audio_playback_start s).1.b_streaming_enabled = s.b_streaming_enabled := by
  by_cases hp : s.b_playback_enabled = true
  · simp [audio_playback_start, hp]
  · by_cases ht : s.buffer_target_fill_size ≤ s.buffer_fill_size <;>
      simp [audio_playback_start, hp, ht]

/-- C7: a second `audio_playback_start_streaming` without an intervening stop
returns the state of the first call unchanged and does not re-arm USB
reception, and `audio_playback_stop_streaming` while not streaming changes
nothing and posts nothing. -/
theorem streaming_idempotence (s : Playback) :
    audio_playback_start_streaming (audio_playback_start_streaming s).1 =
      ((audio_playback_start_streaming s).1, false) ∧
    (s.b_streaming_enabled = false → audio_playback_stop_streaming s = (s, [])) := by
  constructor
  · by_cases hs : s.b_streaming_enabled = true <;>
      simp [audio_playback_start_streaming, hs]
  · intro hs
    simp [audio_playback_stop_streaming, hs]

/-- Witness for `streaming_idempotence`: stopping at the idle initial state is
a no-op posting nothing. -/
theorem streaming_idempotence_witness :
    audio_playback_stop_streaming initState = (initState, []) :=
  (streaming_idempotence initState).2 rfl

/-- C8: after `audio_playback_stop_streaming` followed by
`audio_playback_start_streaming`, both offsets and the fill size are zero and
playback is disabled, regardless of the prior state. -/
theorem session_reset_after_stop_start (s : Playback) :
    (audio_playback_start_streaming (audio_playback_stop_streaming s).1).1.buffer_write_offset
        = 0 ∧
    (audio_playback_start_streaming (audio_playback_stop_streaming s).1).1.buffer_read_offset
        = 0 ∧
    (audio_playback_start_streaming (audio_playback_stop_streaming s).1).1.buffer_fill_size
        = 0 ∧
    (audio_playback_start_streaming (audio_playback_stop_streaming s).1).1.b_playback_enabled
        = false := by
  by_cases hs : s.b_streaming_enabled = true <;> by_cases hp : s.b_playback_enabled = true <;>
    simp [audio_playback_start_streaming, audio_playback_stop_streaming, audio_playback_stop,
          audio_playback_reset, audio_playback_init, hs, hp]

/-- C9: in every state reachable from a both-flags-false state through any
sequence of init, set-sample-rate, start/stop-streaming and packet-received
operations, playback enabled implies streaming enabled. -/
theorem reachable_playback_implies_streaming (cfg : Cfg) (s : Playback)
    (h : Reachable cfg s) :
    s.b_playback_enabled = true → s.b_streaming_enabled = true := by
  induction h with
  | start s h1 h2 =>
      intro hp
      rw [hp] at h2
      exact absurd h2 (by simp)
  | init s b h ih =>
      intro hp
      simp [audio_playback_init] at hp
  | set_rate s ps c h ih =>
      intro hp
      simp only [audio_playback_set_sample_rate] at hp ⊢
      exact ih hp
  | start_stream s h ih =>
      by_cases hs : s.b_streaming_enabled = true <;>
        simp [audio_playback_start_streaming, hs, audio_playback_reset, audio_playback_init]
  | stop_stream s h ih =>
      intro hp
      by_cases hs : s.b_streaming_enabled = true
      · by_cases hpp : s.b_playback_enabled = true
        · simp [audio_playback_stop_streaming, audio_playback_stop, audio_playback_reset,
                audio_playback_init, hs, hpp] at hp
        · simp [audio_playback_stop_streaming, audio_playback_stop, hs, hpp] at hp
      · simp only [audio_playback_stop_streaming] at hp
        rw [if_neg hs] at hp
        exact absurd (ih hp) hs
  | recv s ts a n s' ms h heq ih =>
      intro hp
      unfold audio_playback_received_cb at heq
      split at heq
      · rename_i hsf
        simp only [Option.some.injEq, Prod.mk.injEq] at heq
        obtain ⟨rfl, -⟩ := heq
        exact ih hp
      · rename_i hsf
        have hst : s.b_streaming_enabled = true := by
          cases hbs : s.b_streaming_enabled
          · exact absurd hbs hsf
          · rfl
        split at heq
        · simp only [Option.some.injEq] at heq
          have hs' : s' = (audio_playback_stop s).1 := by rw [heq]
          rw [hs', (stop_result_fields s).1, hst]
        · cases hu : audio_playback_update_write_offset cfg s ts with
          | none =>
              rw [hu] at heq
              exact absurd heq (by simp)
          | some s₁ =>
              rw [hu] at heq
              simp only [Option.some.injEq] at heq
              have hs' : s' = (audio_playback_start (audio_playback_update_fill_size
                  (audio_playback_update_read_offset cfg s₁ a n))).1 := by rw [heq]
              rw [hs', start_result_streaming]
              simp [audio_playback_update_fill_size, audio_playback_update_read_offset,
                    (update_write_offset_some_fields cfg s ts s₁ hu).2.1, hst]

/-- Witness for `reachable_playback_implies_streaming` at the concrete playing
state reached by configuring 192-byte packets, starting a session and
receiving one successful 960-byte transaction. -/
theorem reachable_playback_implies_streaming_witness :
    sPlaying.b_streaming_enabled = true := by
  have hreach : Reachable cfgBig sPlaying := by
    apply Reachable.recv sessionA 960 false 0 sPlaying [Msg.startPlayback]
    · exact Reachable.start_stream (audio_playback_set_sample_rate initState 192 8)
        (Reachable.set_rate initState 192 8 (Reachable.start initState rfl rfl))
    · rfl
  exact reachable_playback_implies_streaming cfgBig sPlaying hreach rfl

end AudioPlayback
